import Mathlib

/-!
Verification of the Abode API client connection/resilience layer
(`custom_components/abode_security/abode/client.py`) against its
natural-language specification.

The Python code is shallowly embedded: client instance attributes become a
`ClientState` record, each network interaction is driven by an explicit
environment value describing what the network does for that attempt, and the
retry loop of `Client.send_request` becomes a fuel-indexed recursion (the fuel
is the fixed attempt budget).  Python JSON values are modelled by `JVal`,
Python dictionaries by association lists with Python insertion-order update
semantics, and Python truthiness by explicit `py...` helpers.
-/

namespace Abode

/-- JSON-like values as produced by parsing a response body (Python objects
resulting from `json.loads`).  Object fields model Python dicts, whose keys
are unique and in insertion order. -/
inductive JVal where
  | bool (b : Bool)
  | num (n : Int)
  | str (s : String)
  | obj (fields : List (String × JVal))
  | arr (elems : List JVal)
  | null

/-- Python truthiness `bool(value)` of a JSON value. -/
def pyBool : JVal → Bool
  | .bool b => b
  | .num n => n != 0
  | .str s => s != ""
  | .obj fields => !fields.isEmpty
  | .arr elems => !elems.isEmpty
  | .null => false

/-- Python truthiness of an optional string (the `_token` attribute):
`None` and the empty string are falsy. -/
def pyTruthy : Option String → Bool
  | none => false
  | some s => s != ""

/-- Python `x or d` on an optional natural number: `None` and `0` are falsy. -/
def pyOrNat (o : Option Nat) (d : Nat) : Nat :=
  match o with
  | none => d
  | some n => if n = 0 then d else n

/-- `d.get(k)` on a Python dict modelled as an association list. -/
def dictGet {α : Type} (d : List (String × α)) (k : String) : Option α :=
  (d.find? (fun p => p.1 == k)).map (fun p => p.2)

/-- `d[k] = v` on a Python dict: overwrite in place if the key exists,
otherwise append at the end (insertion order). -/
def dictInsert {α : Type} (d : List (String × α)) (k : String) (v : α) :
    List (String × α) :=
  if (dictGet d k).isSome then
    d.map (fun p => if p.1 == k then (k, v) else p)
  else
    d ++ [(k, v)]

/-- `d.update(l)` on Python dicts: entries of `l` override entries of `d`. -/
def dictUpdate {α : Type} (d l : List (String × α)) : List (String × α) :=
  l.foldl (fun acc p => dictInsert acc p.1 p.2) d

/-- `d.setdefault(k, v)` on a Python dict: insert only when the key is absent. -/
def dictSetdefault {α : Type} (d : List (String × α)) (k : String) (v : α) :
    List (String × α) :=
  if (dictGet d k).isSome then d else d ++ [(k, v)]

/-- The literal `key_map` of `Client._normalize_cms_settings`. -/
def cms_key_map : List (String × String) :=
  [ ("monitoringactive", "monitoringActive"),
    ("monitoring_active", "monitoringActive"),
    ("monitoringActive", "monitoringActive"),
    ("testmodeactive", "testModeActive"),
    ("test_mode_active", "testModeActive"),
    ("testModeActive", "testModeActive"),
    ("sendmedia", "sendMedia"),
    ("send_media", "sendMedia"),
    ("sendMedia", "sendMedia"),
    ("dispatchwithoutverification", "dispatchWithoutVerification"),
    ("dispatch_without_verification", "dispatchWithoutVerification"),
    ("dispatchWithoutVerification", "dispatchWithoutVerification"),
    ("dispatchpolice", "dispatchPolice"),
    ("dispatch_police", "dispatchPolice"),
    ("dispatchPolice", "dispatchPolice"),
    ("dispatchfire", "dispatchFire"),
    ("dispatch_fire", "dispatchFire"),
    ("dispatchFire", "dispatchFire"),
    ("dispatchmedical", "dispatchMedical"),
    ("dispatch_medical", "dispatchMedical"),
    ("dispatchMedical", "dispatchMedical") ]

/-- `Client._normalize_cms_settings(raw)`: for a dict input, look each key up
in `key_map` (dropping unrecognized keys and falsy mapped names) and store the
Python-truthiness of the value under the canonical name; any non-dict input
normalizes to the empty dict. -/
def normalize_cms_settings : JVal → List (String × Bool)
  | .obj fields =>
      fields.foldl
        (fun acc p =>
          match dictGet cms_key_map p.1 with
          | none => acc
          | some nk => if nk == "" then acc else dictInsert acc nk (pyBool p.2))
        []
  | _ => []

/-- The mutable attributes of a `Client` instance that the resilience layer
reads or writes.  Timestamps are not carried: where the code compares
`datetime.now()` against a stored time, the embedding takes the elapsed age
(or a staleness flag) as an explicit input of the operation. -/
structure ClientState where
  token : Option String
  oauthToken : Option String
  consecutiveFailures : Nat
  authCount : Nat
  sessionRecreateCount : Nat
  cmsCache : Option (List (String × Bool))
  cmsCacheTimeSet : Bool
  panel : Option JVal
  connectionStatus : String

/-- State effect of `Client.login()`.  The method first sets `_token = None`;
on success it stores the fresh tokens, increments `_auth_count`, resets
`_consecutive_failures` and marks the connection `connected`; on failure the
raised exception leaves the cleared token behind.  The fresh token values are
opaque inputs. -/
def loginEffect (st : ClientState) (ok : Bool) (tok oauth : String) : ClientState :=
  if ok then
    { st with
      token := some tok
      oauthToken := some oauth
      authCount := st.authCount + 1
      consecutiveFailures := 0
      connectionStatus := "connected" }
  else
    { st with token := none }

/-- State effect of `Client._recreate_session()`: bump the recreation counter,
replace the session, clear both tokens, clear the CMS cache and its timestamp,
then perform a fresh `login()` (whose failure propagates to the caller after
these effects have already happened). -/
def recreate_session_effect (st : ClientState) (loginOk : Bool)
    (tok oauth : String) : ClientState :=
  loginEffect
    { st with
      sessionRecreateCount := st.sessionRecreateCount + 1
      token := none
      oauthToken := none
      cmsCache := none
      cmsCacheTimeSet := false }
    loginOk tok oauth

/-- State effect of the success path of `Client._send_request`:
`_set_connection_status("connected")`, record the last successful request and
reset `_consecutive_failures` to zero. -/
def successEffect (st : ClientState) : ClientState :=
  { st with connectionStatus := "connected", consecutiveFailures := 0 }

/-- A connection-level exception of the HTTP layer: `TimeoutError` or an
`aiohttp.ClientError` (whose optional `status` attribute and text the handler
at the bottom of `_send_request` reads). -/
inductive NetExc where
  | timeout
  | clientError (text : String) (status : Option Nat)

/-- What the network does for one HTTP call issued by `_send_request`: either
it raises a connection-level exception, or it yields a response with a status,
a JSON body (`none` models `await response.json()` raising), the raw text,
the optional `Retry-After` header value and whether the `Content-Type` header
indicates JSON. -/
inductive NetResult where
  | exc (e : NetExc)
  | response (status : Nat) (jsonBody : Option JVal) (rawText : String)
      (retryAfterHeader : Option String) (contentTypeJson : Bool)

/-- Outcome of a `login()` call: success, an authentication-type exception
(not caught by the retry loop of `send_request`), or a connection-level
exception escaping the login HTTP calls (caught by that loop). -/
inductive LoginResult where
  | ok
  | authFail
  | netFail (e : NetExc)

/-- Whether a `LoginResult` is a success. -/
def LoginResult.isOk : LoginResult → Bool
  | .ok => true
  | _ => false

/-- Whether every character of a string is ASCII. -/
def allAscii (s : String) : Bool :=
  s.data.all (fun c => c.toNat < 128)

/-- Runtime classification of a `Retry-After` header containing non-ASCII
characters, under `h.isdigit()` and `int(h)`: Unicode digit characters make
`str.isdigit` true while `int` either parses them (e.g. Arabic-Indic
digits) or raises `ValueError` (e.g. superscripts).  Those Unicode tables
live in the Python runtime, not in this repository, so the classification
of a non-ASCII header is an explicit environment input — like the JSON
decoding of a body — and must describe the same string the header
carries. -/
inductive NonAsciiDigits where
  | notDigits
  | parsed (n : Nat)
  | intRaises

/-- The cached response body held by a `ResponseWrapper`: the parsed JSON
value, or the raw text fallback. -/
inductive Body where
  | json (j : JVal)
  | text (s : String)

/-- `ResponseWrapper(response_data, status, headers_dict)`; the headers dict
is pass-through data no claim inspects, so it is not carried. -/
structure ResponseWrapper where
  body : Body
  status : Nat

/-- The typed exceptions that can escape `_send_request`:
`AuthenticationException` raised explicitly for an empty 2xx body, an
exception escaping `login()`, `RateLimitException` for HTTP 429, the
`ValueError` from `int` on a digit-classified but non-decimal `Retry-After`
header, the `JSONDecodeError` or `AttributeError` escaping `best_message`
while the 429 exception is being built, a connection-level error, and the
bare `Exception(errors.REQUEST)` raised at the bottom of the function. -/
inductive ReqError where
  | authErr (status : Nat) (msg : String)
  | loginFailure
  | rateLimit (status : Nat) (msg : JVal) (retryAfter : Option Nat)
  | intValueErr
  | messageErr
  | netErr (e : NetExc)
  | apiErr

/-- Result of one `_send_request` call: a returned wrapper or a raised
exception. -/
inductive SendOutcome where
  | ok (w : ResponseWrapper)
  | err (e : ReqError)

/-- Everything outside the client state that determines one `_send_request`
call: the network behaviour, the outcome of `login()` if the entry token
check triggers it, whether the session age exceeds `_session_max_age_seconds`
at this moment, the outcome of the login inside the proactive recreation that
staleness triggers, the runtime classification of a non-ASCII `Retry-After`
header (unused when the header is absent or ASCII), and the opaque fresh
token values a successful login stores. -/
structure AttemptEnv where
  net : NetResult
  entryLogin : LoginResult
  sessionStale : Bool
  staleRecreateLogin : LoginResult
  nonAsciiRetryAfter : NonAsciiDigits
  freshToken : String
  freshOauth : String

/-- `int(s)` on a string of decimal digits, over the character list. -/
def digitsToNat (cs : List Char) : Nat :=
  cs.foldl (fun acc c => acc * 10 + (c.toNat - 48)) 0

/-- `Retry-After` handling in `_send_request`:
`int(h) if h and h.isdigit() else None`, where the outer `none` models
`int` raising `ValueError`.  On an ASCII header `str.isdigit` coincides
with the all-ASCII-digits test and `int` then always succeeds; a header
with non-ASCII characters is classified by `cls`. -/
def parseRetryAfter (h : Option String) (cls : NonAsciiDigits) :
    Option (Option Nat) :=
  match h with
  | none => some none
  | some s =>
      if allAscii s then
        if s != "" && s.data.all Char.isDigit then
          some (some (digitsToNat s.data))
        else some none
      else
        match cls with
        | .notDigits => some none
        | .parsed n => some (some n)
        | .intRaises => none

/-- `AuthenticationException.best_message(response)`: under a JSON content
type, `await response.json()` — which raises on an undecodable body
(`none` here) — followed by `body.get("message", "Unknown error")` — an
`AttributeError` on a non-dict body (also `none`); otherwise the raw text.
The message is the JSON value of the `message` field, which need not be a
string. -/
def bestMessage (jsonBody : Option JVal) (rawText : String)
    (contentTypeJson : Bool) : Option JVal :=
  if contentTypeJson then
    match jsonBody with
    | some (.obj fields) =>
        some ((dictGet fields "message").getD (.str "Unknown error"))
    | _ => none
  else some (.str rawText)

/-- One call of `Client._send_request(method, path, ..., raise_on_error)`.

Mirrors the source: log in when the token is falsy (an exception from that
login propagates with its own kind); proactively recreate the session when it
is older than the maximum age (a failure of the login inside that recreation
propagates); then issue the HTTP call and classify:
a 2xx response parses JSON, treats an empty or near-empty undecodable body as
expired authentication (clear both tokens, raise `AuthenticationException`),
falls back to raw text otherwise, and on success resets the failure counter;
HTTP 429 parses `Retry-After` (propagating the `ValueError` when `int`
raises on it), extracts `best_message` (propagating its decode or attribute
error), and raises `RateLimitException` with both; other
error statuses return the raw-text wrapper when `raise_on_error` is false; an
`aiohttp.ClientError` returns a wrapper built from the exception when
`raise_on_error` is false; every remaining path raises
`Exception(errors.REQUEST)`. -/
def send_request_once (st : ClientState) (env : AttemptEnv)
    (raiseOnError : Bool) : SendOutcome × ClientState :=
  let st1 :=
    if pyTruthy st.token then st
    else loginEffect st env.entryLogin.isOk env.freshToken env.freshOauth
  if ¬ pyTruthy st.token ∧ ¬ env.entryLogin.isOk then
    match env.entryLogin with
    | .netFail e => (.err (.netErr e), st1)
    | _ => (.err .loginFailure, st1)
  else
    let st2 :=
      if env.sessionStale then
        recreate_session_effect st1 env.staleRecreateLogin.isOk
          env.freshToken env.freshOauth
      else st1
    if env.sessionStale ∧ ¬ env.staleRecreateLogin.isOk then
      match env.staleRecreateLogin with
      | .netFail e => (.err (.netErr e), st2)
      | _ => (.err .loginFailure, st2)
    else
      match env.net with
      | .exc .timeout => (.err (.netErr .timeout), st2)
      | .exc (.clientError text excStatus) =>
          if ¬ raiseOnError then
            (.ok { body := .text text, status := pyOrNat excStatus 0 }, st2)
          else (.err .apiErr, st2)
      | .response status jsonBody rawText retryAfterHeader contentTypeJson =>
          if status < 400 then
            match jsonBody with
            | some j =>
                (.ok { body := .json j, status := status }, successEffect st2)
            | none =>
                if rawText = "" ∨ rawText.trim.length < 10 then
                  (.err (.authErr status
                      "Empty response - authentication likely expired"),
                   { st2 with token := none, oauthToken := none })
                else
                  (.ok { body := .text rawText, status := status },
                   successEffect st2)
          else if status = 429 then
            match parseRetryAfter retryAfterHeader env.nonAsciiRetryAfter with
            | none => (.err .intValueErr, st2)
            | some retryAfter =>
                match bestMessage jsonBody rawText contentTypeJson with
                | none => (.err .messageErr, st2)
                | some msg => (.err (.rateLimit status msg retryAfter), st2)
          else if ¬ raiseOnError then
            (.ok { body := .text rawText, status := status }, st2)
          else (.err .apiErr, st2)

/-- Per-iteration environment of the `send_request` retry loop: the
`_send_request` environment for this attempt, the outcome of the login inside
a failure-triggered `_recreate_session()` (whose exceptions the loop
swallows), and the outcome of the relogin attempted before a retry (whose
exceptions the loop also swallows). -/
structure IterEnv where
  att : AttemptEnv
  recreateLoginOk : Bool
  retryLoginOk : Bool

/-- Observable events of one `send_request` call, in order: the sleep of the
429 handler, an invocation of `_recreate_session()` after repeated
connection failures, the exponential-backoff sleep, and the relogin attempt
before a retry. -/
inductive Event where
  | rateLimitSleep (seconds : Nat)
  | recreateSession
  | backoffSleep (seconds : Nat)
  | reloginAttempt (ok : Bool)

/-- How a `send_request` call terminates: returning a wrapper, propagating an
exception, or falling off the end of the attempt loop (Python returns
`None`). -/
inductive SendFinal where
  | value (w : ResponseWrapper)
  | raised (e : ReqError)
  | noneReturned

/-- `max_attempts = 3` in `Client.send_request`. -/
def maxAttempts : Nat := 3

/-- The generic-retry backoff update `retry_delay = min(retry_delay * 2, 30)`. -/
def nextRetryDelay (d : Nat) : Nat := min (d * 2) 30

/-- The body of the `for attempt in range(max_attempts)` loop of
`Client.send_request`, with `fuel` many iterations left (`fuel` equals
`maxAttempts - attempt` at every call).  Each iteration calls
`_send_request`; a returned wrapper is returned at once; a
`RateLimitException` sleeps `max(30, retry_after or 30)` seconds, marks the
connection rate limited and sets the next delay to `min(wait * 2, 300)`; a
`TimeoutError` or `ClientError` increments `_consecutive_failures`, invokes
`_recreate_session()` once the counter is at least 3 (swallowing its
exceptions), re-raises on the last attempt, and otherwise sleeps the backoff
delay, attempts a relogin (swallowing its exceptions) and doubles the delay
capped at 30; any other exception propagates.  A completed loop returns
`None`. -/
def send_request_go (fuel : Nat) (st : ClientState) (envs : Nat → IterEnv)
    (attempt delay : Nat) (raiseOnError : Bool) :
    SendFinal × ClientState × List Event :=
  match fuel with
  | 0 => (.noneReturned, st, [])
  | fuel + 1 =>
    let env := envs attempt
    match send_request_once st env.att raiseOnError with
    | (.ok w, st1) => (.value w, st1, [])
    | (.err (.rateLimit _ _ retryAfter), st1) =>
        let wait := max 30 (pyOrNat retryAfter 30)
        let st2 := { st1 with connectionStatus := "rate_limited" }
        let r := send_request_go fuel st2 envs (attempt + 1)
            (min (wait * 2) 300) raiseOnError
        (r.1, r.2.1, .rateLimitSleep wait :: r.2.2)
    | (.err (.netErr e), st1) =>
        let st2 := { st1 with consecutiveFailures := st1.consecutiveFailures + 1 }
        let st3 :=
          if 3 ≤ st2.consecutiveFailures then
            recreate_session_effect st2 env.recreateLoginOk
              env.att.freshToken env.att.freshOauth
          else st2
        let recEvs :=
          if 3 ≤ st2.consecutiveFailures then [Event.recreateSession] else []
        if attempt = maxAttempts - 1 then
          (.raised (.netErr e), st3, recEvs)
        else
          let st4 := loginEffect st3 env.retryLoginOk
              env.att.freshToken env.att.freshOauth
          let r := send_request_go fuel st4 envs (attempt + 1)
              (nextRetryDelay delay) raiseOnError
          (r.1, r.2.1,
           recEvs ++ .backoffSleep delay :: .reloginAttempt env.retryLoginOk :: r.2.2)
    | (.err e, st1) => (.raised e, st1, [])

/-- `Client.send_request(method, path, ...)`: up to `max_attempts = 3`
attempts starting with `retry_delay = 1`. -/
def send_request (st : ClientState) (envs : Nat → IterEnv)
    (raiseOnError : Bool) : SendFinal × ClientState × List Event :=
  send_request_go maxAttempts st envs 0 1 raiseOnError

/-- Python exceptions that the CMS settings paths can raise or propagate:
a client exception (`request .apiErr` is the bare `Exception(errors.REQUEST)`,
other `request e` values propagate out of an inner `send_request` call), the
`NameError` latent in `_fetch_cms_settings` (reading `response_data` when the
JSON parse raised and the raw text was not empty), an `AttributeError` from
calling `.get` on a non-dict, and a JSON decode error from
`json.loads`. -/
inductive PyExn where
  | request (e : ReqError)
  | nameError
  | attributeError
  | jsonError

/-- Result of a Python call: a value or an uncaught exception. -/
inductive PyResult (α : Type) where
  | ok (a : α)
  | exn (e : PyExn)

/-- `await wrapper.json()` on a `ResponseWrapper`: a cached dict is returned
as-is; a cached string goes through `json.loads`, whose outcome (`none` when
it raises) is the explicit `reparse` input. -/
def wrapperJson (w : ResponseWrapper) (reparse : Option JVal) : Option JVal :=
  match w.body with
  | .json j => some j
  | .text _ => reparse

/-- `await wrapper.text()` on a `ResponseWrapper`.  All source paths that read
the text hold a string body (they run only after the JSON parse failed), so
the dict case (whose text would be `json.dumps` of the body) is left
unmodelled as the empty string. -/
def wrapperText : Body → String
  | .text s => s
  | .json _ => ""

/-- Environment of one CMS fetch helper call: the outcome of its inner
`send_request(..., raise_on_error=False)` call, the outcome of `json.loads`
when the returned wrapper holds raw text, and — for the empty-body retry path
of `_handle_empty_response_and_retry` — the outcome of the login inside
`_recreate_session()`, the parsed JSON of the retried request (`none` when
the recreation, the retry or its JSON parse failed), and the opaque fresh
token values. -/
structure CmsFetchInput where
  call : SendFinal
  reparse : Option JVal
  retryRecreateLoginOk : Bool
  retryJson : Option JVal
  freshToken : String
  freshOauth : String

/-- `Client._handle_empty_response_and_retry(url, context)`: recreate the
session (its partial effects persist even when its login fails) and retry the
request, returning the parsed retry JSON or `None`; every exception inside is
caught and yields `None`. -/
def handle_empty_response_and_retry (st : ClientState) (inp : CmsFetchInput) :
    Option JVal × ClientState :=
  let st1 := recreate_session_effect st inp.retryRecreateLoginOk
      inp.freshToken inp.freshOauth
  if inp.retryRecreateLoginOk then (inp.retryJson, st1) else (none, st1)

/-- `Client._fetch_cms_settings()`: `{}` when `send_request` returned `None`
or the status is 404; the parsed body if it is a dict and `{}` if it parses
to a non-dict; on a JSON parse failure with an empty or whitespace body, the
empty-response retry (its result, or `{}` when it yields `None`); on a parse
failure with a non-empty body, the `return response_data ...` line raises
`NameError` because `response_data` was never bound. -/
def fetch_cms_settings (st : ClientState) (inp : CmsFetchInput) :
    PyResult JVal × ClientState :=
  match inp.call with
  | .raised e => (.exn (.request e), st)
  | .noneReturned => (.ok (.obj []), st)
  | .value w =>
    if w.status = 404 then (.ok (.obj []), st)
    else
      match wrapperJson w inp.reparse with
      | some d => (.ok (match d with | .obj fs => .obj fs | _ => .obj []), st)
      | none =>
          let rawText := wrapperText w.body
          if rawText = "" ∨ rawText.trim = "" then
            let hr := handle_empty_response_and_retry st inp
            match hr.1 with
            | some j => (.ok j, hr.2)
            | none => (.ok (.obj []), hr.2)
          else (.exn .nameError, st)

/-- `Client._fetch_cms_from_security_panel()`: `{}` when `send_request`
returned `None` or the status is 404; on a JSON parse failure, the
empty-response retry when the body is empty or whitespace (falling back to
`{}`), otherwise `{}`; on a parsed dict, extract
`response_data.get("attributes", {}).get("cms", {}) or {}` (an
`AttributeError` when a `.get` receiver is not a dict). -/
def fetch_cms_from_security_panel (st : ClientState) (inp : CmsFetchInput) :
    PyResult JVal × ClientState :=
  match inp.call with
  | .raised e => (.exn (.request e), st)
  | .noneReturned => (.ok (.obj []), st)
  | .value w =>
    if w.status = 404 then (.ok (.obj []), st)
    else
      match wrapperJson w inp.reparse with
      | none =>
          let rawText := wrapperText w.body
          if rawText = "" ∨ rawText.trim = "" then
            let hr := handle_empty_response_and_retry st inp
            match hr.1 with
            | some j => (.ok j, hr.2)
            | none => (.ok (.obj []), hr.2)
          else (.ok (.obj []), st)
      | some d =>
          match d with
          | .obj fs =>
              match (dictGet fs "attributes").getD (.obj []) with
              | .obj afs =>
                  let cms := (dictGet afs "cms").getD (.obj [])
                  (.ok (if pyBool cms then cms else .obj []), st)
              | _ => (.exn .attributeError, st)
          | _ => (.exn .attributeError, st)

/-- The cache-miss body of `Client.get_cms_settings`: start from the panel
CMS values (when `_panel` is a dict), override them with the normalized
primary fetch (`_fetch_cms_settings`), fill remaining keys from the
normalized security-panel fallback via `setdefault` when the fallback is
truthy, then store the combined dict in the cache with a fresh timestamp. -/
def refresh_cms_settings (st : ClientState) (primary fallback : CmsFetchInput) :
    PyResult (List (String × Bool)) × ClientState :=
  let panelRes : PyResult (List (String × Bool)) :=
    match st.panel with
    | some (.obj fs) =>
        match (dictGet fs "attributes").getD (.obj []) with
        | .obj afs =>
            .ok (normalize_cms_settings ((dictGet afs "cms").getD (.obj [])))
        | _ => .exn .attributeError
    | _ => .ok []
  match panelRes with
  | .exn e => (.exn e, st)
  | .ok panelNorm =>
    let combined1 := dictUpdate [] panelNorm
    match fetch_cms_settings st primary with
    | (.exn e, st1) => (.exn e, st1)
    | (.ok cmsResp, st1) =>
      let combined2 := dictUpdate combined1 (normalize_cms_settings cmsResp)
      match fetch_cms_from_security_panel st1 fallback with
      | (.exn e, st2) => (.exn e, st2)
      | (.ok secPanel, st2) =>
        let combined3 :=
          if pyBool secPanel then
            (normalize_cms_settings secPanel).foldl
              (fun acc p => dictSetdefault acc p.1 p.2) combined2
          else combined2
        (.ok combined3,
         { st2 with cmsCache := some combined3, cmsCacheTimeSet := true })

/-- `Client.get_cms_settings(ttl_seconds)`: under the single-flight lock,
compute `ttl = ttl_seconds or 300`; when the cached dict is truthy, its
timestamp is set and its age (an explicit input here) is below the TTL,
return the cache without any fetch; otherwise run the two-source refresh. -/
def get_cms_settings (st : ClientState) (ttlSeconds : Option Nat) (age : Nat)
    (primary fallback : CmsFetchInput) :
    PyResult (List (String × Bool)) × ClientState :=
  let ttl := pyOrNat ttlSeconds 300
  let hit : Bool :=
    match st.cmsCache with
    | some cache => !cache.isEmpty && st.cmsCacheTimeSet && decide (age < ttl)
    | none => false
  if hit then (.ok (st.cmsCache.getD []), st)
  else refresh_cms_settings st primary fallback

/-- Python equality of a JSON value against a bool
(`True == 1` and `False == 0` hold in Python). -/
def pyEqBool (j : JVal) (v : Bool) : Bool :=
  match j with
  | .bool b => b == v
  | .num n => (v && n == 1) || (!v && n == 0)
  | _ => false

/-- `response_object if isinstance(response_object, dict) else {}`. -/
def jvalAsObj : JVal → List (String × JVal)
  | .obj fs => fs
  | _ => []

/-- The echoed-value validation of `set_cms_setting`: the two sequential
guards `key not in response_object` and `response_object.get(key) != value`
both raise the same `Exception(errors.REQUEST)`, so they collapse into one
success predicate. -/
def cms_setting_echo_ok (respObj : List (String × JVal)) (key : String)
    (value : Bool) : Bool :=
  match dictGet respObj key with
  | none => false
  | some jv => pyEqBool jv value

/-- `Client.set_cms_setting(key, value)` for a bool `value` (the non-bool
type guard cannot fire): POST the setting, parse the response (an
`AttributeError` when `send_request` returned `None`, a decode error when the
wrapper held undecodable text), coerce a non-dict parse to `{}`, raise
`Exception(errors.REQUEST)` when the echoed value is missing or differs from
the requested one, and on success clear `_cms_cache` and `_cms_cache_time`
before returning the parsed response. -/
def set_cms_setting (st : ClientState) (envs : Nat → IterEnv)
    (reparse : Option JVal) (key : String) (value : Bool) :
    PyResult (List (String × JVal)) × ClientState :=
  match send_request st envs true with
  | (.raised e, st1, _) => (.exn (.request e), st1)
  | (.noneReturned, st1, _) => (.exn .attributeError, st1)
  | (.value w, st1, _) =>
    match wrapperJson w reparse with
    | none => (.exn .jsonError, st1)
    | some j =>
      if cms_setting_echo_ok (jvalAsObj j) key value then
        (.ok (jvalAsObj j),
         { st1 with cmsCache := none, cmsCacheTimeSet := false })
      else (.exn (.request .apiErr), st1)

/-- `Client.set_setting(name, value, area)`.  The `settings` module is not
under src/.  Modelled from the spec: `settings.Setting.load` only validates
the setting name and value and yields the request path and payload; that
validation is abstracted by the `loadOk` flag (a failure raises a client
exception) and the path and payload are opaque.  The rest is client.py
itself: issue one `send_request("put", ...)` and return its result — the
method performs no settings-cache invalidation of its own. -/
def set_setting (st : ClientState) (loadOk : Bool) (envs : Nat → IterEnv) :
    PyResult (Option ResponseWrapper) × ClientState :=
  if ¬ loadOk then (.exn (.request .apiErr), st)
  else
    match send_request st envs true with
    | (.value w, st1, _) => (.ok (some w), st1)
    | (.noneReturned, st1, _) => (.ok none, st1)
    | (.raised e, st1, _) => (.exn (.request e), st1)

/-- Whether a Python result is a value rather than an uncaught exception. -/
def PyResult.isOk {α : Type} : PyResult α → Bool
  | .ok _ => true
  | .exn _ => false

/-- The value of a Python result, with a default for the exception case. -/
def PyResult.okD {α : Type} : PyResult α → α → α
  | .ok a, _ => a
  | .exn _, d => d

/-- First-some choice on options (Python `a or b` for dict lookups). -/
def optOr {α : Type} (a b : Option α) : Option α :=
  match a with
  | some x => some x
  | none => b

/-- The keys of an association-list dict. -/
def dictKeys {α : Type} (d : List (String × α)) : List String :=
  d.map Prod.fst

/-- A dict whose keys are pairwise distinct (every Python dict is). -/
def NoDupKeys {α : Type} (d : List (String × α)) : Prop :=
  (dictKeys d).Nodup

section Fixtures

/-- A loop environment whose logins all succeed, with the given network
behaviour. -/
def baseEnv (net : NetResult) : IterEnv :=
  { att :=
      { net := net
        entryLogin := .ok
        sessionStale := false
        staleRecreateLogin := .ok
        nonAsciiRetryAfter := .notDigits
        freshToken := "freshtok"
        freshOauth := "freshoauth" }
    recreateLoginOk := true
    retryLoginOk := true }

/-- A successful JSON response. -/
def okNet : NetResult := .response 200 (some (.obj [("area", .num 1)])) "" none true

/-- HTTP 200 whose body fails JSON decoding and is empty. -/
def emptyBodyNet : NetResult := .response 200 none "" none false

/-- HTTP 429 without a Retry-After header. -/
def rateLimitNet : NetResult := .response 429 none "Too Many Requests" none false

/-- A client state with valid tokens, no failures and a cold cache. -/
def st0 : ClientState :=
  { token := some "apitoken"
    oauthToken := some "oauthtoken"
    consecutiveFailures := 0
    authCount := 1
    sessionRecreateCount := 0
    cmsCache := none
    cmsCacheTimeSet := false
    panel := none
    connectionStatus := "connected" }

/-- `st0` with a fresh non-empty settings cache. -/
def cachedSt : ClientState :=
  { st0 with cmsCache := some [("monitoringActive", true)], cmsCacheTimeSet := true }

/-- A CMS fetch whose inner request came back 404. -/
def fetch404 : CmsFetchInput :=
  { call := .value { body := .text "Not Found", status := 404 }
    reparse := none
    retryRecreateLoginOk := true
    retryJson := none
    freshToken := "freshtok"
    freshOauth := "freshoauth" }

/-- A CMS fetch whose inner request returned the security-panel resource
holding one `cms` setting. -/
def fetchSendMedia : CmsFetchInput :=
  { call := .value
      { body := .json (.obj
          [("attributes", .obj [("cms", .obj [("sendMedia", .bool true)])])])
        status := 200 }
    reparse := none
    retryRecreateLoginOk := true
    retryJson := none
    freshToken := "freshtok"
    freshOauth := "freshoauth" }

/-- A CMS fetch whose inner request returned one snake_case setting from the
dedicated endpoint. -/
def fetchMonitoring : CmsFetchInput :=
  { call := .value
      { body := .json (.obj [("monitoring_active", .bool true)])
        status := 200 }
    reparse := none
    retryRecreateLoginOk := true
    retryJson := none
    freshToken := "freshtok"
    freshOauth := "freshoauth" }

/-- The key-normalization example input of the specification. -/
def c7input : JVal :=
  .obj [("monitoring_active", .bool true), ("TestModeActive", .bool false)]

/-- A trace whose first attempt is a 200 with an empty undecodable body and
whose later attempts would succeed. -/
def c1envs : Nat → IterEnv :=
  fun n => if n = 0 then baseEnv emptyBodyNet else baseEnv okNet

end Fixtures

/-- C1: at the failing input — a request whose HTTP status is 200 but whose
body fails JSON decoding and is empty — `_send_request` clears the primary
auth token and the OAuth token and raises an authentication error (as the
claim says), but `send_request` does not retry with a fresh login: the
`AuthenticationException` is caught by none of the retry-loop handlers and
propagates to the caller with no backoff, relogin, or further attempt events,
even though the remaining attempts of the trace would have succeeded. -/
theorem empty_body_raises_auth_error_without_retry :
    send_request st0 c1envs true =
      (.raised (.authErr 200 "Empty response - authentication likely expired"),
       { st0 with token := none, oauthToken := none }, []) := rfl

/-- C5: when every attempt in the budget ends in a rate-limit condition
(three consecutive HTTP 429 responses), `send_request` falls off the end of
its attempt loop and returns `None` — it neither returns a response wrapper
nor raises, contradicting the claim (and the docstring of `send_request`,
which says it raises once all retries are exhausted). -/
theorem rate_limit_exhaustion_returns_none :
    send_request st0 (fun _ => baseEnv rateLimitNet) true =
      (.noneReturned, { st0 with connectionStatus := "rate_limited" },
       [.rateLimitSleep 30, .rateLimitSleep 30, .rateLimitSleep 30]) := rfl

/-- C7 counterexample: on the input of the claim,
`{"monitoring_active": true, "TestModeActive": false}`, normalization keeps
only `monitoringActive`; the PascalCase spelling `TestModeActive` is not in
`key_map` and is dropped, so no `testModeActive` key is exposed — the claimed
result `{"monitoringActive": true, "testModeActive": false}` is wrong. -/
theorem normalize_example_drops_unrecognized_key :
    normalize_cms_settings c7input = [("monitoringActive", true)]
    ∧ dictGet (normalize_cms_settings c7input) "testModeActive" = none :=
  ⟨rfl, rfl⟩

/-- C6 counterexample: a successful `set_setting` leaves the settings cache
untouched, so a `get_cms_settings` call issued immediately afterwards is a
cache hit that returns the pre-write cached value without any fetch. -/
theorem set_setting_then_get_returns_stale_cache :
    (set_setting cachedSt true (fun _ => baseEnv okNet)).1.isOk = true
    ∧ (set_setting cachedSt true (fun _ => baseEnv okNet)).2.cmsCache =
        some [("monitoringActive", true)]
    ∧ get_cms_settings (set_setting cachedSt true (fun _ => baseEnv okNet)).2
        none 0 fetch404 fetch404 =
        (.ok [("monitoringActive", true)],
         (set_setting cachedSt true (fun _ => baseEnv okNet)).2) :=
  ⟨rfl, rfl, rfl⟩

/-- C9: `get_cms_settings(ttl_seconds)` with `ttl_seconds` equal to `0` or
`None` uses the default TTL of 300 seconds (`ttl = ttl_seconds or 300`), so a
truthy cache entry younger than 300 seconds is returned as-is, with the state
unchanged and the two fetch environments never consulted — a zero TTL cannot
force a cache bypass. -/
theorem get_cms_settings_zero_or_none_ttl_uses_default
    (st : ClientState) (m : List (String × Bool)) (ttl : Option Nat) (age : Nat)
    (primary fallback : CmsFetchInput)
    (hm : st.cmsCache = some m) (hne : m ≠ [])
    (htime : st.cmsCacheTimeSet = true)
    (hage : age < 300) (httl : ttl = some 0 ∨ ttl = none) :
    get_cms_settings st ttl age primary fallback = (.ok m, st) := by
  have httl300 : pyOrNat ttl 300 = 300 := by
    rcases httl with h | h <;> simp [h, pyOrNat]
  have hne' : m.isEmpty = false := by
    cases m with
    | nil => exact absurd rfl hne
    | cons a l => rfl
  simp [get_cms_settings, hm, htime, httl300, hne', hage]

/-- Witness for C9 at a concrete fresh cache, zero TTL and age 5. -/
theorem get_cms_settings_zero_ttl_witness :
    get_cms_settings cachedSt (some 0) 5 fetch404 fetch404 =
      (.ok [("monitoringActive", true)], cachedSt) :=
  get_cms_settings_zero_or_none_ttl_uses_default cachedSt
    [("monitoringActive", true)] (some 0) 5 fetch404 fetch404 rfl
    (by decide) rfl (by decide) (Or.inl rfl)

/-- C10: when the HTTP call raises an `aiohttp.ClientError` and
`raise_on_error` is false, `_send_request` does not raise: it returns a
response wrapper whose status is the exception status attribute when that is
present and non-zero, and 0 otherwise, and whose body is the exception text;
the client state is untouched. -/
theorem client_error_raise_on_error_false_returns_wrapper
    (st : ClientState) (env : AttemptEnv) (text : String)
    (excStatus : Option Nat)
    (htok : pyTruthy st.token = true) (hstale : env.sessionStale = false)
    (hnet : env.net = .exc (.clientError text excStatus)) :
    send_request_once st env false =
      (.ok { body := .text text, status := pyOrNat excStatus 0 }, st)
    ∧ (excStatus = none → pyOrNat excStatus 0 = 0) := by
  constructor
  · simp [send_request_once, htok, hstale, hnet]
  · intro h
    simp [h, pyOrNat]

/-- Witness for C10 at a status-less connection error. -/
theorem client_error_raise_on_error_false_witness :
    send_request_once st0
      { (baseEnv (.exc (.clientError "Connection failed" none))).att with
        net := .exc (.clientError "Connection failed" none) } false =
      (.ok { body := .text "Connection failed", status := 0 }, st0) := by
  have h := client_error_raise_on_error_false_returns_wrapper st0
    { (baseEnv (.exc (.clientError "Connection failed" none))).att with
      net := .exc (.clientError "Connection failed" none) }
    "Connection failed" none rfl rfl rfl
  simpa [pyOrNat] using h.1

/-- Helper: `_send_request` on a `TimeoutError` lets the exception propagate
(only `aiohttp.ClientError` is caught inside) and leaves the state
unchanged. -/
theorem send_request_once_timeout (st : ClientState) (env : AttemptEnv)
    (roe : Bool) (henv : env.net = .exc .timeout)
    (htok : pyTruthy st.token = true) (hstale : env.sessionStale = false) :
    send_request_once st env roe = (.err (.netErr .timeout), st) := by
  simp [send_request_once, henv, htok, hstale]

/-- Helper: `_send_request` on an `aiohttp.ClientError` with `raise_on_error`
true swallows the client error and raises the bare `Exception(errors.REQUEST)`
instead — an exception type that the retry loop of `send_request` does not
catch. -/
theorem send_request_once_client_error_raises_api_error (st : ClientState)
    (env : AttemptEnv) (text : String) (excStatus : Option Nat)
    (henv : env.net = .exc (.clientError text excStatus))
    (htok : pyTruthy st.token = true) (hstale : env.sessionStale = false) :
    send_request_once st env true = (.err .apiErr, st) := by
  simp [send_request_once, henv, htok, hstale]

/-- Helper: `_send_request` on an HTTP 429 whose `Retry-After` parse and
`best_message` extraction both return raises `RateLimitException` with the
parsed value and message, leaving the state unchanged. -/
theorem send_request_once_429 (st : ClientState) (env : AttemptEnv)
    (jb : Option JVal) (rt : String) (raHdr : Option String) (ct : Bool)
    (roe : Bool) (ra : Option Nat) (msg : JVal)
    (henv : env.net = .response 429 jb rt raHdr ct)
    (htok : pyTruthy st.token = true) (hstale : env.sessionStale = false)
    (hra : parseRetryAfter raHdr env.nonAsciiRetryAfter = some ra)
    (hmsg : bestMessage jb rt ct = some msg) :
    send_request_once st env roe = (.err (.rateLimit 429 msg ra), st) := by
  simp [send_request_once, henv, htok, hstale, hra, hmsg]

/-- Helper: `_send_request` on a decodable 2xx response returns the wrapper
and applies the success effect. -/
theorem send_request_once_success (st : ClientState) (env : AttemptEnv)
    (status : Nat) (j : JVal) (rt : String) (ra : Option String) (ct : Bool)
    (roe : Bool) (henv : env.net = .response status (some j) rt ra ct)
    (htok : pyTruthy st.token = true) (hstale : env.sessionStale = false)
    (hlt : status < 400) :
    send_request_once st env roe =
      (.ok { body := .json j, status := status }, successEffect st) := by
  simp [send_request_once, henv, htok, hstale, hlt]

/-- C2: for every connection-level failure observed by the retry loop of
`send_request` (an attempt on which `_send_request` raised `TimeoutError` or
`aiohttp.ClientError`), the consecutive-failure counter is incremented once;
`_recreate_session` is invoked exactly when the incremented counter reaches 3
or more, and its event precedes the backoff, relogin and all later-attempt
events; and on a successful response the counter is reset to zero. -/
theorem send_request_failure_counter_policy
    (fuel : Nat) (st stX : ClientState) (envs : Nat → IterEnv)
    (attempt delay : Nat) (roe : Bool) (e : NetExc)
    (hOnce : send_request_once st (envs attempt).att roe = (.err (.netErr e), stX))
    (st2 : ClientState) (env2 : AttemptEnv) (status2 : Nat) (j2 : JVal)
    (rt2 : String) (ra2 : Option String) (ct2 : Bool)
    (henv2 : env2.net = .response status2 (some j2) rt2 ra2 ct2)
    (htok2 : pyTruthy st2.token = true) (hstale2 : env2.sessionStale = false)
    (hlt2 : status2 < 400) :
    (send_request_go (fuel + 1) st envs attempt delay roe =
      (let stInc := { stX with consecutiveFailures := stX.consecutiveFailures + 1 }
       let stRec :=
         if 3 ≤ stX.consecutiveFailures + 1 then
           recreate_session_effect stInc (envs attempt).recreateLoginOk
             (envs attempt).att.freshToken (envs attempt).att.freshOauth
         else stInc
       let recEvs : List Event :=
         if 3 ≤ stX.consecutiveFailures + 1 then [Event.recreateSession] else []
       if attempt = maxAttempts - 1 then (.raised (.netErr e), stRec, recEvs)
       else
         let stLog := loginEffect stRec (envs attempt).retryLoginOk
             (envs attempt).att.freshToken (envs attempt).att.freshOauth
         let r := send_request_go fuel stLog envs (attempt + 1)
             (nextRetryDelay delay) roe
         (r.1, r.2.1,
          recEvs ++ Event.backoffSleep delay ::
            Event.reloginAttempt (envs attempt).retryLoginOk :: r.2.2)))
    ∧ send_request_once st2 env2 roe =
        (.ok { body := .json j2, status := status2 }, successEffect st2)
    ∧ (successEffect st2).consecutiveFailures = 0 := by
  refine ⟨?_, send_request_once_success st2 env2 status2 j2 rt2 ra2 ct2 roe
    henv2 htok2 hstale2 hlt2, rfl⟩
  simp only [send_request_go, hOnce]

/-- Witness for C2: starting from two prior consecutive failures, a timeout
as the first of the remaining attempts drives the counter to 3 and triggers
session recreation before the backoff, relogin and retry; a successful
response resets the counter. -/
theorem send_request_failure_counter_witness :
    (send_request_go 3 { st0 with consecutiveFailures := 2 }
        (fun _ => baseEnv (.exc .timeout)) 0 1 true).2.2.head? =
      some Event.recreateSession
    ∧ (successEffect st0).consecutiveFailures = 0 := by
  have h := send_request_failure_counter_policy 2
    { st0 with consecutiveFailures := 2 } { st0 with consecutiveFailures := 2 }
    (fun _ => baseEnv (.exc .timeout)) 0 1 true .timeout
    (send_request_once_timeout _ _ _ rfl rfl rfl)
    st0 (baseEnv okNet).att 200 (.obj [("area", .num 1)]) "" none true
    rfl rfl rfl (by decide)
  refine ⟨?_, h.2.2⟩
  rw [h.1]
  rfl

/-- C3 counterexample: a 429 whose `Content-Type` indicates JSON but whose
body fails JSON decoding makes `best_message` raise while the
`RateLimitException` is being built; the decode error propagates uncaught
out of `send_request` with no rate-limit sleep and no retry — refuting the
claim that every 429 response is waited out for `max(30, Retry-After)`
seconds. -/
theorem rate_limit_decode_error_propagates_without_wait :
    send_request st0
      (fun _ => baseEnv (.response 429 none "rate limited" (some "60") true))
      true =
      (.raised .messageErr, st0, []) := rfl

/-- C3 amended: on every 429 response whose rate-limit bookkeeping itself
does not raise — the `Retry-After` parse yields a value (instead of `int`
raising `ValueError`) and `best_message` returns a message (the content
type is not JSON, or the body decodes to a JSON object) — `send_request`
sleeps exactly `max(30, retry_after or 30)` seconds before the next attempt
(the sleep event precedes every event of the remaining attempts), so the
wait is always at least 30 seconds and at least the parsed `Retry-After`
value. -/
theorem send_request_rate_limit_wait
    (fuel : Nat) (st : ClientState) (envs : Nat → IterEnv)
    (attempt delay : Nat) (roe : Bool)
    (jb : Option JVal) (rt : String) (raHdr : Option String) (ct : Bool)
    (ra : Option Nat) (msg : JVal)
    (henv : (envs attempt).att.net = .response 429 jb rt raHdr ct)
    (htok : pyTruthy st.token = true)
    (hstale : (envs attempt).att.sessionStale = false)
    (hra : parseRetryAfter raHdr (envs attempt).att.nonAsciiRetryAfter =
      some ra)
    (hmsg : bestMessage jb rt ct = some msg) :
    (send_request_go (fuel + 1) st envs attempt delay roe =
      (let wait := max 30 (pyOrNat ra 30)
       let r := send_request_go fuel
           { st with connectionStatus := "rate_limited" } envs (attempt + 1)
           (min (wait * 2) 300) roe
       (r.1, r.2.1, Event.rateLimitSleep wait :: r.2.2)))
    ∧ 30 ≤ max 30 (pyOrNat ra 30)
    ∧ (∀ R, ra = some R → R ≤ max 30 (pyOrNat ra 30)) := by
  refine ⟨?_, le_max_left _ _, ?_⟩
  · simp only [send_request_go,
      send_request_once_429 st (envs attempt).att jb rt raHdr ct roe ra msg
        henv htok hstale hra hmsg]
  · intro R hR
    rw [hR]
    by_cases h0 : R = 0
    · subst h0
      exact Nat.zero_le _
    · have hp : pyOrNat (some R) 30 = R := by simp [pyOrNat, h0]
      rw [hp]
      exact le_max_right _ _

/-- Witness for C3 amended: with an ASCII `Retry-After: 60` and a non-JSON
content type the executor sleeps 60 seconds before the retry; the wait is
at least 30 and at least 60. -/
theorem send_request_rate_limit_wait_witness :
    (send_request_go 3 st0
        (fun _ => baseEnv (.response 429 none "" (some "60") false)) 0 1
        true).2.2.head? = some (Event.rateLimitSleep 60)
    ∧ 30 ≤ max 30 (pyOrNat (some 60) 30)
    ∧ 60 ≤ max 30 (pyOrNat (some 60) 30) := by
  have h := send_request_rate_limit_wait 2 st0
    (fun _ => baseEnv (.response 429 none "" (some "60") false)) 0 1 true
    none "" (some "60") false (some 60) (.str "") rfl rfl rfl (by rfl) rfl
  refine ⟨?_, h.2.1, h.2.2 60 rfl⟩
  rw [h.1]
  rfl

/-- Helper: one non-final retry-loop iteration on an observed connection
failure below the recreation threshold: increment the counter, sleep the
backoff delay, relogin, and continue with the doubled-and-capped delay. -/
theorem go_step_conn_retry (fuel : Nat) (st stX : ClientState)
    (envs : Nat → IterEnv) (attempt delay : Nat) (roe : Bool) (e : NetExc)
    (hOnce : send_request_once st (envs attempt).att roe = (.err (.netErr e), stX))
    (hlow : stX.consecutiveFailures + 1 < 3)
    (hnotlast : ¬ attempt = maxAttempts - 1) :
    send_request_go (fuel + 1) st envs attempt delay roe =
      ((send_request_go fuel
          (loginEffect { stX with consecutiveFailures := stX.consecutiveFailures + 1 }
            (envs attempt).retryLoginOk (envs attempt).att.freshToken
            (envs attempt).att.freshOauth)
          envs (attempt + 1) (nextRetryDelay delay) roe).1,
       (send_request_go fuel
          (loginEffect { stX with consecutiveFailures := stX.consecutiveFailures + 1 }
            (envs attempt).retryLoginOk (envs attempt).att.freshToken
            (envs attempt).att.freshOauth)
          envs (attempt + 1) (nextRetryDelay delay) roe).2.1,
       Event.backoffSleep delay ::
         Event.reloginAttempt (envs attempt).retryLoginOk ::
         (send_request_go fuel
            (loginEffect { stX with consecutiveFailures := stX.consecutiveFailures + 1 }
              (envs attempt).retryLoginOk (envs attempt).att.freshToken
              (envs attempt).att.freshOauth)
            envs (attempt + 1) (nextRetryDelay delay) roe).2.2) := by
  have hcc : ¬ 3 ≤ stX.consecutiveFailures + 1 := by omega
  simp only [send_request_go, hOnce]
  rw [if_neg hnotlast, if_neg hcc, if_neg hcc]
  simp

/-- Helper: the final retry-loop iteration on an observed connection failure
below the recreation threshold re-raises the connection error. -/
theorem go_step_conn_last (fuel : Nat) (st stX : ClientState)
    (envs : Nat → IterEnv) (attempt delay : Nat) (roe : Bool) (e : NetExc)
    (hOnce : send_request_once st (envs attempt).att roe = (.err (.netErr e), stX))
    (hlow : stX.consecutiveFailures + 1 < 3)
    (hlast : attempt = maxAttempts - 1) :
    send_request_go (fuel + 1) st envs attempt delay roe =
      (.raised (.netErr e),
       { stX with consecutiveFailures := stX.consecutiveFailures + 1 }, []) := by
  have hcc : ¬ 3 ≤ stX.consecutiveFailures + 1 := by omega
  simp only [send_request_go, hOnce]
  rw [if_pos hlast, if_neg hcc, if_neg hcc]

/-- C4 counterexample: a transport-level `aiohttp.ClientError` raised by the
HTTP call on the very first attempt (with two attempts remaining and
`raise_on_error` true) is not retried at all: `_send_request` swallows it and
raises the bare `Exception(errors.REQUEST)`, which the retry loop does not
catch, so `send_request` propagates immediately with no backoff sleep and no
relogin — refuting the claim that every connection-level error with attempts
remaining is retried after backoff and a fresh login. -/
theorem transport_error_not_retried :
    send_request st0
      (fun _ => baseEnv (.exc (.clientError "Connection reset by peer" none)))
      true =
      (.raised .apiErr, st0, []) := rfl

/-- C4 amended: for timeouts the executor behaves as claimed — on a trace of
three consecutive `TimeoutError` attempts it sleeps with exponential backoff
seeded at 1 second and doubling (1 s then 2 s, the doubling capped at 30 s),
attempts a fresh login before each retry, and propagates the timeout once all
3 attempts are exhausted; a transport-level `aiohttp.ClientError` raised by
the HTTP call itself under `raise_on_error=true`, however, is converted to
the generic API error and propagates at once without retry. -/
theorem send_request_timeout_backoff_and_transport_fatal
    (st : ClientState) (envs : Nat → IterEnv)
    (h0 : (envs 0).att.net = .exc .timeout)
    (h1 : (envs 1).att.net = .exc .timeout)
    (h2 : (envs 2).att.net = .exc .timeout)
    (hs0 : (envs 0).att.sessionStale = false)
    (hs1 : (envs 1).att.sessionStale = false)
    (hs2 : (envs 2).att.sessionStale = false)
    (htok : pyTruthy st.token = true)
    (hcf : st.consecutiveFailures = 0)
    (hr0 : (envs 0).retryLoginOk = true)
    (hr1 : (envs 1).retryLoginOk = true)
    (hf0 : (envs 0).att.freshToken ≠ "")
    (hf1 : (envs 1).att.freshToken ≠ "")
    (fuel : Nat) (stB : ClientState) (envsB : Nat → IterEnv)
    (attempt delay : Nat) (text : String) (excStatus : Option Nat)
    (hB : (envsB attempt).att.net = .exc (.clientError text excStatus))
    (htokB : pyTruthy stB.token = true)
    (hsB : (envsB attempt).att.sessionStale = false) :
    (send_request st envs true).1 = .raised (.netErr .timeout)
    ∧ (send_request st envs true).2.2 =
        [.backoffSleep 1, .reloginAttempt true,
         .backoffSleep 2, .reloginAttempt true]
    ∧ (∀ d, nextRetryDelay d = min (d * 2) 30 ∧ nextRetryDelay d ≤ 30)
    ∧ send_request_go (fuel + 1) stB envsB attempt delay true =
        (.raised .apiErr, stB, []) := by
  have htrace : send_request st envs true =
      (.raised (.netErr .timeout),
       { st with
          token := some (envs 1).att.freshToken
          oauthToken := some (envs 1).att.freshOauth
          authCount := st.authCount + 1 + 1
          consecutiveFailures := 1
          connectionStatus := "connected" },
       [.backoffSleep 1, .reloginAttempt true,
        .backoffSleep 2, .reloginAttempt true]) := by
    show send_request_go 3 st envs 0 1 true = _
    rw [go_step_conn_retry 2 st st envs 0 1 true .timeout
      (send_request_once_timeout st (envs 0).att true h0 htok hs0)
      (by omega) (by decide)]
    rw [hr0]
    have hL0 : loginEffect
        { st with consecutiveFailures := st.consecutiveFailures + 1 } true
        (envs 0).att.freshToken (envs 0).att.freshOauth =
        { st with
            token := some (envs 0).att.freshToken
            oauthToken := some (envs 0).att.freshOauth
            authCount := st.authCount + 1
            consecutiveFailures := 0
            connectionStatus := "connected" } := by
      simp [loginEffect]
    rw [hL0]
    rw [show nextRetryDelay 1 = 2 from rfl]
    rw [go_step_conn_retry 1 _ _ envs (0 + 1) 2 true .timeout
      (send_request_once_timeout _ (envs (0 + 1)).att true h1
        (by simp [pyTruthy, hf0]) hs1)
      (by simp) (by decide)]
    rw [hr1]
    have hL1 : loginEffect
        { st with
            token := some (envs 0).att.freshToken
            oauthToken := some (envs 0).att.freshOauth
            authCount := st.authCount + 1
            consecutiveFailures := 0 + 1
            connectionStatus := "connected" } true
        (envs (0 + 1)).att.freshToken (envs (0 + 1)).att.freshOauth =
        { st with
            token := some (envs 1).att.freshToken
            oauthToken := some (envs 1).att.freshOauth
            authCount := st.authCount + 1 + 1
            consecutiveFailures := 0
            connectionStatus := "connected" } := by
      simp [loginEffect]
    rw [hL1]
    rw [show nextRetryDelay 2 = 4 from rfl]
    rw [go_step_conn_last 0 _ _ envs (0 + 1 + 1) 4 true .timeout
      (send_request_once_timeout _ (envs (0 + 1 + 1)).att true
        (by simpa using h2) (by simp [pyTruthy, hf1]) (by simpa using hs2))
      (by simp) (by decide)]
  refine ⟨?_, ?_, fun d => ⟨rfl, Nat.min_le_right _ _⟩, ?_⟩
  · rw [htrace]
  · rw [htrace]
  · simp only [send_request_go,
      send_request_once_client_error_raises_api_error stB (envsB attempt).att
        text excStatus hB htokB hsB]

/-- Witness for C4 amended: the concrete three-timeout trace and a concrete
transport error. -/
theorem send_request_timeout_backoff_witness :
    (send_request st0 (fun _ => baseEnv (.exc .timeout)) true).1 =
      .raised (.netErr .timeout)
    ∧ (send_request st0 (fun _ => baseEnv (.exc .timeout)) true).2.2 =
        [.backoffSleep 1, .reloginAttempt true,
         .backoffSleep 2, .reloginAttempt true]
    ∧ send_request_go 1 st0
        (fun _ => baseEnv (.exc (.clientError "Connection reset by peer" none)))
        0 1 true = (.raised .apiErr, st0, []) := by
  have h := send_request_timeout_backoff_and_transport_fatal st0
    (fun _ => baseEnv (.exc .timeout)) rfl rfl rfl rfl rfl rfl rfl rfl rfl rfl
    (by decide) (by decide) 0 st0
    (fun _ => baseEnv (.exc (.clientError "Connection reset by peer" none)))
    0 1 "Connection reset by peer" none rfl rfl rfl
  exact ⟨h.1, h.2.1, h.2.2.2⟩

/-- C6 amended: the cache invalidation belongs to `set_cms_setting`, not
`set_setting`: whenever `set_cms_setting` succeeds, it unconditionally clears
`_cms_cache` and `_cms_cache_time`, so any immediately following
`get_cms_settings` call is a cache miss that runs the two-source refresh
(`set_setting` itself leaves the cache untouched, as the counterexample
shows). -/
theorem set_cms_setting_success_invalidates_cache
    (st : ClientState) (envs : Nat → IterEnv) (reparse : Option JVal)
    (key : String) (value : Bool) (r : List (String × JVal)) (st1 : ClientState)
    (h : set_cms_setting st envs reparse key value = (.ok r, st1)) :
    st1.cmsCache = none ∧ st1.cmsCacheTimeSet = false
    ∧ ∀ ttl age primary fallback,
        get_cms_settings st1 ttl age primary fallback =
          refresh_cms_settings st1 primary fallback := by
  have hc : st1.cmsCache = none ∧ st1.cmsCacheTimeSet = false := by
    unfold set_cms_setting at h
    repeat' split at h
    all_goals first
      | (simp at h; done)
      | (simp only [Prod.mk.injEq, PyResult.ok.injEq] at h
         rw [← h.2]
         exact ⟨rfl, rfl⟩)
  refine ⟨hc.1, hc.2, fun ttl age primary fallback => ?_⟩
  simp [get_cms_settings, hc.1]

/-- Witness for C6 amended: a concrete successful `set_cms_setting` whose
echoed response matches, after which the cache is cleared. -/
theorem set_cms_setting_invalidates_witness :
    ((set_cms_setting cachedSt
        (fun _ => baseEnv
          (.response 200 (some (.obj [("testModeActive", .bool true)])) ""
            none true))
        none "testModeActive" true).2).cmsCache = none
    ∧ ((set_cms_setting cachedSt
        (fun _ => baseEnv
          (.response 200 (some (.obj [("testModeActive", .bool true)])) ""
            none true))
        none "testModeActive" true).2).cmsCacheTimeSet = false := by
  have h := set_cms_setting_success_invalidates_cache cachedSt
    (fun _ => baseEnv
      (.response 200 (some (.obj [("testModeActive", .bool true)])) "" none true))
    none "testModeActive" true [("testModeActive", .bool true)]
    ((set_cms_setting cachedSt
        (fun _ => baseEnv
          (.response 200 (some (.obj [("testModeActive", .bool true)])) ""
            none true))
        none "testModeActive" true).2) rfl
  exact ⟨h.1, h.2.1⟩

/-- C7 amended: every spelling listed in `key_map` (the snake_case,
all-lowercase and camelCase variants) maps to its canonical camelCase key
with the boolean coercion of its value; spellings outside the map — such as
the PascalCase `TestModeActive` of the example — are dropped, so the example
input normalizes to `{"monitoringActive": true}` alone. -/
theorem normalize_recognized_spelling_maps_to_canonical
    (key nk : String) (v : JVal)
    (h : dictGet cms_key_map key = some nk) (hnk : nk ≠ "") :
    normalize_cms_settings (.obj [(key, v)]) = [(nk, pyBool v)]
    ∧ normalize_cms_settings c7input = [("monitoringActive", true)] := by
  refine ⟨?_, rfl⟩
  have hnk' : (nk == "") = false := by
    simpa using hnk
  simp only [normalize_cms_settings, List.foldl_cons, List.foldl_nil]
  rw [h]
  simp [hnk', dictInsert, dictGet]

/-- Witness for C7 amended: the snake_case spelling `send_media` maps to the
canonical `sendMedia`. -/
theorem normalize_recognized_spelling_witness :
    normalize_cms_settings (.obj [("send_media", .bool true)]) =
      [("sendMedia", true)]
    ∧ normalize_cms_settings c7input = [("monitoringActive", true)] := by
  have h := normalize_recognized_spelling_maps_to_canonical "send_media"
    "sendMedia" (.bool true) rfl (by decide)
  exact ⟨h.1, h.2⟩

section DictLemmas

variable {α : Type}

theorem optOr_none_right (a : Option α) : optOr a none = a := by
  cases a <;> rfl

theorem dictGet_nil (k : String) : dictGet ([] : List (String × α)) k = none := rfl

theorem dictGet_cons (a : String × α) (d : List (String × α)) (k : String) :
    dictGet (a :: d) k = if a.1 == k then some a.2 else dictGet d k := by
  cases h : a.1 == k <;> simp [dictGet, List.find?, h]

theorem dictGet_append (d e : List (String × α)) (k : String) :
    dictGet (d ++ e) k = optOr (dictGet d k) (dictGet e k) := by
  induction d with
  | nil => simp [dictGet_nil, optOr]
  | cons a d ih =>
      rw [List.cons_append, dictGet_cons, dictGet_cons]
      cases h : a.1 == k <;> simp [h, optOr, ih]

theorem dictGet_none_of_find?_none (d : List (String × α)) (k : String)
    (h : d.find? (fun p => p.1 == k) = none) : dictGet d k = none := by
  simp [dictGet, h]

theorem find?_none_of_dictGet_none (d : List (String × α)) (k : String)
    (h : dictGet d k = none) : d.find? (fun p => p.1 == k) = none := by
  unfold dictGet at h
  cases hf : d.find? (fun p => p.1 == k)
  · rfl
  · rw [hf] at h
    simp at h

theorem dictGet_none_of_not_mem (d : List (String × α)) (k : String)
    (h : k ∉ dictKeys d) : dictGet d k = none := by
  apply dictGet_none_of_find?_none
  rw [List.find?_eq_none]
  intro p hp
  intro hpk
  exact h (List.mem_map.mpr ⟨p, hp, by simpa using hpk⟩)

theorem not_mem_of_dictGet_none (d : List (String × α)) (k : String)
    (h : dictGet d k = none) : k ∉ dictKeys d := by
  intro hk
  obtain ⟨p, hp, hpk⟩ := List.mem_map.mp hk
  have hnone := List.find?_eq_none.mp (find?_none_of_dictGet_none d k h) p hp
  exact hnone (by simpa using hpk)

theorem dictGet_dictInsert_self (d : List (String × α)) (k : String) (v : α) :
    dictGet (dictInsert d k v) k = some v := by
  unfold dictInsert
  by_cases hs : (dictGet d k).isSome
  · rw [if_pos hs]
    induction d with
    | nil => simp [dictGet_nil] at hs
    | cons a d ih =>
        rw [List.map_cons]
        by_cases ha : (a.1 == k) = true
        · rw [if_pos ha, dictGet_cons]
          simp
        · rw [if_neg ha, dictGet_cons]
          rw [dictGet_cons] at hs
          rw [Bool.not_eq_true] at ha
          rw [ha] at hs ⊢
          simp only [Bool.false_eq_true, if_false] at hs ⊢
          exact ih hs
  · rw [if_neg hs, dictGet_append]
    have hd : dictGet d k = none := by
      cases hdk : dictGet d k
      · rfl
      · rw [hdk] at hs
        simp at hs
    rw [hd, dictGet_cons]
    simp [optOr]

theorem dictGet_dictInsert_ne (d : List (String × α)) (k k2 : String) (v : α)
    (h : ¬ k = k2) :
    dictGet (dictInsert d k v) k2 = dictGet d k2 := by
  have hkk : (k == k2) = false := by simpa using h
  unfold dictInsert
  by_cases hs : (dictGet d k).isSome
  · rw [if_pos hs]
    clear hs
    induction d with
    | nil => simp [dictGet_nil]
    | cons a d ih =>
        rw [List.map_cons]
        by_cases ha : (a.1 == k) = true
        · have ha' : a.1 = k := by simpa using ha
          rw [if_pos ha, dictGet_cons, dictGet_cons, hkk, ha', hkk]
          simpa using ih
        · rw [if_neg ha, dictGet_cons, dictGet_cons]
          cases h2 : a.1 == k2
          · simp only [Bool.false_eq_true, if_false]
            exact ih
          · simp
  · rw [if_neg hs, dictGet_append, dictGet_cons, hkk]
    simp [dictGet_nil, optOr_none_right]

theorem dictGet_setdefault_fold (l : List (String × α)) (d : List (String × α))
    (k : String) :
    dictGet (l.foldl (fun a p => dictSetdefault a p.1 p.2) d) k =
      optOr (dictGet d k) (dictGet l k) := by
  induction l generalizing d with
  | nil => simp [dictGet_nil, optOr_none_right]
  | cons a l ih =>
      rw [List.foldl_cons, ih, dictGet_cons]
      unfold dictSetdefault
      by_cases hs : (dictGet d a.1).isSome
      · rw [if_pos hs]
        by_cases hk : (a.1 == k) = true
        · have hk' : a.1 = k := by simpa using hk
          subst hk'
          obtain ⟨x, hx⟩ := Option.isSome_iff_exists.mp hs
          simp [hk, hx, optOr]
        · rw [Bool.not_eq_true] at hk
          rw [hk]
          simp
      · rw [if_neg hs, dictGet_append, dictGet_cons]
        have hd : dictGet d a.1 = none := by
          cases hdk : dictGet d a.1
          · rfl
          · rw [hdk] at hs
            simp at hs
        by_cases hk : (a.1 == k) = true
        · have hk' : a.1 = k := by simpa using hk
          subst hk'
          simp [hd, dictGet_nil, optOr]
        · rw [Bool.not_eq_true] at hk
          rw [hk]
          cases hdk2 : dictGet d k <;> simp [optOr, dictGet_nil]

theorem dictKeys_dictInsert_of_mem (d : List (String × α)) (k : String) (v : α)
    (h : (dictGet d k).isSome) :
    dictKeys (dictInsert d k v) = dictKeys d := by
  unfold dictInsert
  rw [if_pos h]
  unfold dictKeys
  rw [List.map_map]
  apply List.map_congr_left
  intro p _
  simp only [Function.comp_apply]
  by_cases hp : (p.1 == k) = true
  · have hp' : p.1 = k := by simpa using hp
    rw [if_pos hp]
    simp [hp']
  · rw [if_neg hp]

theorem nodup_dictInsert (d : List (String × α)) (k : String) (v : α)
    (h : NoDupKeys d) : NoDupKeys (dictInsert d k v) := by
  by_cases hs : (dictGet d k).isSome
  · unfold NoDupKeys
    rw [dictKeys_dictInsert_of_mem d k v hs]
    exact h
  · have hd : dictGet d k = none := by
      cases hdk : dictGet d k
      · rfl
      · rw [hdk] at hs
        simp at hs
    unfold dictInsert
    rw [if_neg hs]
    unfold NoDupKeys dictKeys at h ⊢
    rw [List.map_append]
    rw [List.nodup_append]
    refine ⟨h, by simp, ?_⟩
    intro x hx hx2
    simp only [List.map_cons, List.map_nil, List.mem_singleton] at hx2
    rw [hx2] at hx
    exact not_mem_of_dictGet_none d k hd hx

theorem dictGet_dictUpdate_of_nodup (l : List (String × α))
    (d : List (String × α)) (k : String) (h : NoDupKeys l) :
    dictGet (dictUpdate d l) k = optOr (dictGet l k) (dictGet d k) := by
  induction l generalizing d with
  | nil => simp [dictUpdate, dictGet_nil, optOr]
  | cons a l ih =>
      have hnd : NoDupKeys l := by
        unfold NoDupKeys dictKeys at h
        rw [List.map_cons] at h
        exact (List.nodup_cons.mp h).2
      have hstep : dictUpdate d (a :: l) = dictUpdate (dictInsert d a.1 a.2) l := rfl
      rw [hstep, ih _ hnd, dictGet_cons]
      by_cases hk : (a.1 == k) = true
      · have hk' : a.1 = k := by simpa using hk
        subst hk'
        have hmem : a.1 ∉ dictKeys l := by
          unfold NoDupKeys dictKeys at h
          rw [List.map_cons] at h
          exact (List.nodup_cons.mp h).1
        rw [dictGet_none_of_not_mem l a.1 hmem, dictGet_dictInsert_self]
        simp [hk, optOr]
      · rw [Bool.not_eq_true] at hk
        have hk2 : ¬ a.1 = k := by simpa using hk
        rw [dictGet_dictInsert_ne d a.1 k a.2 hk2, hk]
        simp

theorem nodup_normalize (r : JVal) : NoDupKeys (normalize_cms_settings r) := by
  have aux : ∀ (fs : List (String × JVal)) (acc : List (String × Bool)),
      NoDupKeys acc →
      NoDupKeys (fs.foldl
        (fun acc p =>
          match dictGet cms_key_map p.1 with
          | none => acc
          | some nk => if nk == "" then acc else dictInsert acc nk (pyBool p.2))
        acc) := by
    intro fs
    induction fs with
    | nil => intro acc h; simpa using h
    | cons a fs ih =>
        intro acc h
        rw [List.foldl_cons]
        apply ih
        cases hk : dictGet cms_key_map a.1 with
        | none => simpa using h
        | some nk =>
            by_cases hnk : (nk == "") = true
            · simpa [hnk] using h
            · rw [Bool.not_eq_true] at hnk
              simpa [hnk] using nodup_dictInsert acc nk (pyBool a.2) h
  cases r <;> first
    | exact aux _ [] (by simp [NoDupKeys, dictKeys])
    | simp [normalize_cms_settings, NoDupKeys, dictKeys]

end DictLemmas

/-- C8: on a cache miss with an empty panel cache, `get_cms_settings` merges
the normalized primary fetch with the normalized security-panel fallback so
that for every key the result is the primary value when present and the
fallback value otherwise (fallback entries enter only via `setdefault`); and
in the concrete scenario — primary endpoint 404, fallback returning
`attributes.cms = (sendMedia := true)` — the result is exactly
`(sendMedia := true)` from the fallback alone. -/
theorem get_cms_settings_merge_primary_precedence
    (st : ClientState) (P : List (String × JVal)) (cmsJ : JVal)
    (prim fall : CmsFetchInput) (sp sf : Nat)
    (hpanel : st.panel = none) (hcold : st.cmsCache = none)
    (hprim : prim.call = .value { body := .json (.obj P), status := sp })
    (hsp : ¬ sp = 404)
    (hfall : fall.call = .value
      { body := .json (.obj [("attributes", .obj [("cms", cmsJ)])])
        status := sf })
    (hsf : ¬ sf = 404) :
    ((get_cms_settings st none 0 prim fall).1.isOk = true)
    ∧ (∀ k, dictGet ((get_cms_settings st none 0 prim fall).1.okD []) k =
        optOr (dictGet (normalize_cms_settings (.obj P)) k)
          (if pyBool cmsJ then dictGet (normalize_cms_settings cmsJ) k
           else none))
    ∧ get_cms_settings st0 none 0 fetch404 fetchSendMedia =
        (.ok [("sendMedia", true)],
         { st0 with
            cmsCache := some [("sendMedia", true)]
            cmsCacheTimeSet := true }) := by
  have hfetchP : fetch_cms_settings st prim = (.ok (.obj P), st) := by
    unfold fetch_cms_settings
    rw [hprim]
    dsimp only
    rw [if_neg hsp]
    rfl
  have hfetchS : fetch_cms_from_security_panel st fall =
      (.ok (if pyBool cmsJ then cmsJ else .obj []), st) := by
    unfold fetch_cms_from_security_panel
    rw [hfall]
    dsimp only
    rw [if_neg hsf]
    rfl
  have hmiss : get_cms_settings st none 0 prim fall =
      refresh_cms_settings st prim fall := by
    simp [get_cms_settings, hcold]
  have hres : refresh_cms_settings st prim fall =
      (.ok (if pyBool (if pyBool cmsJ then cmsJ else .obj []) then
              (normalize_cms_settings
                  (if pyBool cmsJ then cmsJ else .obj [])).foldl
                (fun acc p => dictSetdefault acc p.1 p.2)
                (dictUpdate [] (normalize_cms_settings (.obj P)))
            else dictUpdate [] (normalize_cms_settings (.obj P))),
       { st with
          cmsCache := some
            (if pyBool (if pyBool cmsJ then cmsJ else .obj []) then
              (normalize_cms_settings
                  (if pyBool cmsJ then cmsJ else .obj [])).foldl
                (fun acc p => dictSetdefault acc p.1 p.2)
                (dictUpdate [] (normalize_cms_settings (.obj P)))
            else dictUpdate [] (normalize_cms_settings (.obj P)))
          cmsCacheTimeSet := true }) := by
    unfold refresh_cms_settings
    rw [hpanel]
    dsimp only
    rw [hfetchP]
    dsimp only
    rw [hfetchS]
    dsimp only
    rw [hpanel]
    rfl
  refine ⟨?_, ?_, rfl⟩
  · rw [hmiss, hres]
    by_cases hb : pyBool (if pyBool cmsJ then cmsJ else .obj []) = true
    · rw [if_pos hb]
      rfl
    · rw [if_neg hb]
      rfl
  · intro k
    rw [hmiss, hres]
    by_cases hb : pyBool cmsJ = true
    · rw [if_pos hb, if_pos hb, if_pos hb]
      dsimp only [PyResult.okD]
      rw [dictGet_setdefault_fold,
        dictGet_dictUpdate_of_nodup _ _ _ (nodup_normalize (.obj P)),
        dictGet_nil, optOr_none_right]
    · rw [Bool.not_eq_true] at hb
      rw [hb]
      dsimp only [PyResult.okD]
      simp only [Bool.false_eq_true, if_false]
      have hob : pyBool (JVal.obj []) = false := rfl
      rw [hob]
      simp only [Bool.false_eq_true, if_false]
      rw [dictGet_dictUpdate_of_nodup _ _ _ (nodup_normalize (.obj P)),
        dictGet_nil, optOr_none_right]

/-- Witness for C8: concrete primary and fallback responses, including the
404-fallback scenario of the specification. -/
theorem get_cms_settings_merge_witness :
    ((get_cms_settings st0 none 0 fetchMonitoring fetchSendMedia).1.isOk = true)
    ∧ get_cms_settings st0 none 0 fetch404 fetchSendMedia =
        (.ok [("sendMedia", true)],
         { st0 with
            cmsCache := some [("sendMedia", true)]
            cmsCacheTimeSet := true }) := by
  have h := get_cms_settings_merge_primary_precedence st0
    [("monitoring_active", .bool true)] (.obj [("sendMedia", .bool true)])
    fetchMonitoring fetchSendMedia 200 200 rfl rfl rfl (by decide) rfl
    (by decide)
  exact ⟨h.1, h.2.2⟩

end Abode
